import Mathlib

/-!
Shallow embedding of the `simple-router` client-side router.

Source files embedded here:
- `src/src/components/Link.tsx` — the `Link` component: per-link `isCurrent`
  state, the `popstate` handler that recomputes it, and the click handler that
  mutates the history stack (`replaceState` when `isCurrent`, else `pushState`,
  both writing the non-null state object `{}`) and then dispatches a
  `popstate` event.
- `src/src/components/Page.tsx` — the `Page` wrapper and the `Router`
  component: `Router` keeps `pathname` state, resolves
  `routes[pathname] || routes["/"]`, and on `popstate` with a non-null
  `window.history.state` sets `pathname` from the live location, throws if
  `contentRef` is unassigned, and otherwise focuses the heading element.
- `src/unnamed/part_001` — the `usePopstate` hook: `addEventListener` on
  mount, `removeEventListener` on cleanup.

The browser session history is modelled as a nonempty list of entries, head
first (the head is the current entry); `window.location.pathname` is the head
entry's pathname and `window.history.state` is the head entry's marker
(`null` for true page loads, the non-null object `{}` for this system's own
navigations).
-/

namespace SimpleRouter

/-- The `window.history.state` value of a history entry: `null` for a true
page load, or the non-null empty object `\x7b\x7d` written by `pushState` /
`replaceState` in `Link.handleOnClick`. -/
inductive Marker where
  | null : Marker
  | obj : Marker
deriving DecidableEq, Repr

/-- One entry of the browser session history stack: its pathname and its
state marker. -/
structure HistEntry where
  pathname : String
  marker : Marker
deriving DecidableEq, Repr

/-- `window.location.pathname`: the pathname of the current (top) history
entry. The default is irrelevant because the stack is never empty. -/
def livePathname (hist : List HistEntry) : String :=
  (hist.headD ⟨"/", Marker.null⟩).pathname

/-- `window.history.state`: the marker of the current (top) history entry. -/
def liveMarker (hist : List HistEntry) : Marker :=
  (hist.headD ⟨"/", Marker.null⟩).marker

/-- Per-instance state of the `Link` component: its fixed `href` prop and its
`isCurrent` React state. -/
structure LinkState where
  href : String
  isCurrent : Bool
deriving DecidableEq, Repr

/-- `Link.handlePopstate`: `setIsCurrent(href === window.location.pathname)`. -/
def linkHandlePopstate (hist : List HistEntry) (l : LinkState) : LinkState :=
  { l with isCurrent := l.href == livePathname hist }

/-- The `aria-current` attribute rendered by `Link`:
`isCurrent ? "page" : undefined`. -/
def ariaCurrent (l : LinkState) : Option String :=
  if l.isCurrent then some "page" else none

/-- The primitive effects performed by `Link.handleOnClick`, in order:
history mutations and the `popstate` dispatch. -/
inductive NavOp where
  | replaceTop (e : HistEntry)
  | push (e : HistEntry)
  | broadcastSignal
deriving DecidableEq, Repr

/-- Effect of a single history operation on the stack. `replaceTop` is
`history.replaceState` (overwrites the current entry), `push` is
`history.pushState`, and the dispatch itself does not change the stack. -/
def applyNavOp : NavOp → List HistEntry → List HistEntry
  | NavOp.replaceTop e, h => e :: h.tail
  | NavOp.push e, h => e :: h
  | NavOp.broadcastSignal, h => h

def applyNavOps (ops : List NavOp) (h : List HistEntry) : List HistEntry :=
  ops.foldl (fun acc op => applyNavOp op acc) h

/-- `Link.handleOnClick` as the ordered trace of its effects:
`if (isCurrent) replaceState(\x7b\x7d, "", href) else pushState(\x7b\x7d, "", href);`
then `dispatchEvent(new PopStateEvent("popstate"))`. -/
def handleOnClickTrace (l : LinkState) : List NavOp :=
  (if l.isCurrent then [NavOp.replaceTop ⟨l.href, Marker.obj⟩]
   else [NavOp.push ⟨l.href, Marker.obj⟩]) ++ [NavOp.broadcastSignal]

/-- The history stack after `Link.handleOnClick` has run all its effects. -/
def clickHist (l : LinkState) (hist : List HistEntry) : List HistEntry :=
  applyNavOps (handleOnClickTrace l) hist

/-- Number of `popstate` dispatches in an effect trace. -/
def countBroadcasts (ops : List NavOp) : Nat :=
  (ops.filter (fun op => decide (op = NavOp.broadcastSignal))).length

/-- The history stack as it stands when the first `popstate` dispatch of the
trace begins (`none` if the trace contains no dispatch). This is the stack
every handler invoked by that synchronous dispatch reads. -/
def histAtFirstBroadcast : List NavOp → List HistEntry → Option (List HistEntry)
  | [], _ => none
  | NavOp.broadcastSignal :: _, h => some h
  | op :: rest, h => histAtFirstBroadcast rest (applyNavOp op h)

/-- A route table entry: `{ title: string; component: JSX.Element }`. The
opaque renderable is modelled by an identifier. -/
structure RouteProps where
  title : String
  component : Nat
deriving DecidableEq, Repr

/-- Route resolution in `Router`: `routes[pathname] || routes["/"]`. -/
def resolveRoute (routes : List (String × RouteProps)) (p : String) :
    Option RouteProps :=
  (routes.lookup p).orElse (fun _ => routes.lookup "/")

/-- State of the `Router` component: its `pathname` React state and whether
`contentRef.current` is assigned (the `Page` heading registered itself as the
focus target). -/
structure RouterState where
  pathname : String
  contentRef : Bool
deriving DecidableEq, Repr

/-- Result of running `Router.handlePopstate`: the router state afterwards,
whether `contentRef.current.focus()` was called, and the thrown error, if
any. React state enqueued by `setPathname` before a throw still applies, so
the state field is meaningful even when `error` is `some`. -/
structure PopstateResult where
  router : RouterState
  focusTransferred : Bool
  error : Option String
deriving DecidableEq, Repr

/-- `Router.handlePopstate`: if `window.history.state !== null`, set
`pathname` from the live location, then throw if `contentRef.current` is
unassigned, else focus it. If the state is `null`, do nothing. -/
def routerHandlePopstate (hist : List HistEntry) (r : RouterState) :
    PopstateResult :=
  match liveMarker hist with
  | Marker.null => ⟨r, false, none⟩
  | Marker.obj =>
    let r2 : RouterState := { r with pathname := livePathname hist }
    if r.contentRef then ⟨r2, true, none⟩
    else ⟨r2, false, some "contentRef must be assigned by <Page> component"⟩

/-- The whole-page state: the history stack, every mounted `Link`, the
`Router`, and whether keyboard focus currently sits on the page heading. -/
structure SysState where
  hist : List HistEntry
  links : List LinkState
  router : RouterState
  focusOnHeading : Bool
deriving DecidableEq, Repr

/-- Dispatching a `popstate` event: every subscribed handler runs
synchronously against the same (already-mutated) history stack — each `Link`
recomputes `isCurrent` and the `Router` runs `handlePopstate`. An exception
in one DOM listener does not stop the others, so the link updates happen
regardless of a router throw; the thrown error is returned alongside. -/
def broadcastPopstate (s : SysState) : SysState × Option String :=
  let res := routerHandlePopstate s.hist s.router
  ({ s with links := s.links.map (linkHandlePopstate s.hist),
            router := res.router,
            focusOnHeading := if res.focusTransferred then true else s.focusOnHeading },
   res.error)

/-- A click on the `i`-th link: `handleOnClick` mutates the history stack and
then dispatches `popstate`. -/
def clickStep (s : SysState) (i : Nat) (hi : i < s.links.length) :
    SysState × Option String :=
  broadcastPopstate { s with hist := clickHist (s.links.get ⟨i, hi⟩) s.hist }

/-- A native navigation (browser back/forward, or a load-time `popstate` from
Safari-like hosts): the host makes some nonempty stack current and dispatches
`popstate`. -/
def navPopStep (s : SysState) (hist2 : List HistEntry) :
    SysState × Option String :=
  broadcastPopstate { s with hist := hist2 }

/-- A `Link` at mount: `useState(href === window.location.pathname)`. -/
def initLink (p0 href : String) : LinkState :=
  ⟨href, href == p0⟩

/-- The page right after the initial load at pathname `p0`: a single
null-marker history entry, each link's `isCurrent` initialised from the live
location, the router's `pathname` likewise, and focus at the document body. -/
def initState (p0 : String) (hrefs : List String) (ref : Bool) : SysState :=
  { hist := [⟨p0, Marker.null⟩],
    links := hrefs.map (initLink p0),
    router := ⟨p0, ref⟩,
    focusOnHeading := false }

/-- States the running system can actually be in: an initial load, followed by
any interleaving of link clicks and native navigations. -/
inductive Reachable : SysState → Prop where
  | init (p0 : String) (hrefs : List String) (ref : Bool) :
      Reachable (initState p0 hrefs ref)
  | click (s : SysState) (i : Nat) (hi : i < s.links.length) :
      Reachable s → Reachable (clickStep s i hi).1
  | navPop (s : SysState) (hist2 : List HistEntry) (hne : hist2 ≠ []) :
      Reachable s → Reachable (navPopStep s hist2).1

/-- `window.addEventListener("popstate", handler)` as used by the
`usePopstate` hook on mount. Handlers are modelled by identifiers; the list is
in subscription order. DOM semantics: registering an already-registered
identical listener is discarded. -/
def addEventListener (ls : List Nat) (h : Nat) : List Nat :=
  if h ∈ ls then ls else ls ++ [h]

/-- `window.removeEventListener("popstate", handler)` as used by the
`usePopstate` effect cleanup: removes the matching listener, if present. -/
def removeEventListener (ls : List Nat) (h : Nat) : List Nat :=
  ls.erase h

/-! ## Helper lemmas -/

/-- The stack `Link.handleOnClick` leaves behind, in closed form: the new
entry `⟨href, obj⟩` on top of either the old tail (replace) or the whole old
stack (push), according to the cached `isCurrent` flag. -/
theorem clickHist_eq (l : LinkState) (h : List HistEntry) :
    clickHist l h =
      ⟨l.href, Marker.obj⟩ :: (if l.isCurrent then h.tail else h) := by
  cases hc : l.isCurrent <;>
    simp [clickHist, applyNavOps, handleOnClickTrace, hc, applyNavOp]

theorem broadcastPopstate_hist (s : SysState) :
    (broadcastPopstate s).1.hist = s.hist := rfl

theorem broadcastPopstate_links (s : SysState) :
    (broadcastPopstate s).1.links = s.links.map (linkHandlePopstate s.hist) :=
  rfl

/-- Right after any `popstate` dispatch, every link's `isCurrent` equals the
comparison of its `href` with the live pathname. -/
theorem link_inv_after_broadcast (s : SysState) :
    ∀ l ∈ (broadcastPopstate s).1.links,
      l.isCurrent = (l.href == livePathname (broadcastPopstate s).1.hist) := by
  intro l hl
  rw [broadcastPopstate_links] at hl
  rw [broadcastPopstate_hist]
  obtain ⟨l0, _, rfl⟩ := List.mem_map.mp hl
  rfl

/-- The history stack is never empty in a reachable state. -/
theorem reachable_hist_ne (s : SysState) (hs : Reachable s) : s.hist ≠ [] := by
  induction hs with
  | init p0 hrefs ref => simp [initState]
  | click s i hi hs ih =>
      rw [clickStep, broadcastPopstate_hist]
      rw [clickHist_eq]
      exact List.cons_ne_nil _ _
  | navPop s hist2 hne hs ih =>
      rw [navPopStep, broadcastPopstate_hist]
      exact hne

/-- The per-link invariant holds in every reachable state: `isCurrent` is the
comparison of the link's `href` with the live pathname. Initially it holds by
construction of `useState`, and every subsequent state is the result of a
`popstate` dispatch, whose handlers re-establish it. -/
theorem reachable_link_inv (s : SysState) (hs : Reachable s) :
    ∀ l ∈ s.links, l.isCurrent = (l.href == livePathname s.hist) := by
  induction hs with
  | init p0 hrefs ref =>
      intro l hl
      simp only [initState, List.mem_map] at hl
      obtain ⟨href, _, rfl⟩ := hl
      simp [initLink, livePathname, initState]
  | click s i hi hs ih =>
      exact link_inv_after_broadcast _
  | navPop s hist2 hne hs ih =>
      exact link_inv_after_broadcast _

/-! ## Claim theorems -/

/-- Claim C1: in every reachable state, activating a link whose target equals
the live current pathname replaces the top history entry (stack depth
unchanged), and activating a link whose target differs pushes a new entry
(stack depth +1); in both cases the new top entry carries the target pathname
and a non-null marker. The code branches on the cached `isCurrent` flag, but
by `reachable_link_inv` that flag always agrees with the live comparison. -/
theorem click_replaces_iff_target_is_live_current (s : SysState)
    (hs : Reachable s) (i : Nat) (hi : i < s.links.length) :
    ((s.links.get ⟨i, hi⟩).href = livePathname s.hist →
      clickHist (s.links.get ⟨i, hi⟩) s.hist
          = ⟨(s.links.get ⟨i, hi⟩).href, Marker.obj⟩ :: s.hist.tail ∧
      (clickHist (s.links.get ⟨i, hi⟩) s.hist).length = s.hist.length) ∧
    ((s.links.get ⟨i, hi⟩).href ≠ livePathname s.hist →
      clickHist (s.links.get ⟨i, hi⟩) s.hist
          = ⟨(s.links.get ⟨i, hi⟩).href, Marker.obj⟩ :: s.hist ∧
      (clickHist (s.links.get ⟨i, hi⟩) s.hist).length = s.hist.length + 1) := by
  have hinv := reachable_link_inv s hs (s.links.get ⟨i, hi⟩)
    (List.get_mem s.links i hi)
  have hne := reachable_hist_ne s hs
  refine ⟨fun heq => ?_, fun hneq => ?_⟩
  · have hc : (s.links.get ⟨i, hi⟩).isCurrent = true := by
      rw [hinv]
      exact beq_iff_eq.mpr heq
    rw [clickHist_eq, hc]
    refine ⟨by simp, ?_⟩
    cases h : s.hist with
    | nil => exact absurd h hne
    | cons a t => simp [h]
  · have hc : (s.links.get ⟨i, hi⟩).isCurrent = false := by
      rw [hinv]
      exact beq_eq_false_iff_ne.mpr hneq
    rw [clickHist_eq, hc]
    simp

theorem click_replaces_iff_target_is_live_current_witness :
    1 < (initState "/" ["/", "/about"] true).links.length ∧
    ((initState "/" ["/", "/about"] true).links.get ⟨1, by decide⟩).href
        ≠ livePathname (initState "/" ["/", "/about"] true).hist ∧
    (clickHist ((initState "/" ["/", "/about"] true).links.get ⟨1, by decide⟩)
        (initState "/" ["/", "/about"] true).hist).length
      = (initState "/" ["/", "/about"] true).hist.length + 1 := by
  have h := click_replaces_iff_target_is_live_current
    (initState "/" ["/", "/about"] true)
    (Reachable.init "/" ["/", "/about"] true) 1 (by decide)
  exact ⟨by decide, by decide, (h.2 (by decide)).2⟩

/-- Claim C2: a `popstate` signal whose top-entry marker is non-null makes the
`Router` update its `pathname` state to the live location's pathname and
transfer focus to the registered heading, with no error, provided the
focus target is registered. -/
theorem nonnull_signal_updates_pathname_and_focuses (s : SysState)
    (hm : liveMarker s.hist = Marker.obj) (hr : s.router.contentRef = true) :
    (broadcastPopstate s).1.router.pathname = livePathname s.hist ∧
    (broadcastPopstate s).1.focusOnHeading = true ∧
    (broadcastPopstate s).2 = none := by
  simp [broadcastPopstate, routerHandlePopstate, hm, hr]

theorem nonnull_signal_updates_pathname_and_focuses_witness :
    liveMarker (SysState.mk [⟨"/about", Marker.obj⟩, ⟨"/", Marker.null⟩] []
        ⟨"/", true⟩ false).hist = Marker.obj ∧
    (SysState.mk [⟨"/about", Marker.obj⟩, ⟨"/", Marker.null⟩] []
        ⟨"/", true⟩ false).router.contentRef = true ∧
    (broadcastPopstate (SysState.mk [⟨"/about", Marker.obj⟩, ⟨"/", Marker.null⟩]
        [] ⟨"/", true⟩ false)).1.router.pathname
      = livePathname (SysState.mk [⟨"/about", Marker.obj⟩, ⟨"/", Marker.null⟩]
        [] ⟨"/", true⟩ false).hist := by
  have h := nonnull_signal_updates_pathname_and_focuses
    (SysState.mk [⟨"/about", Marker.obj⟩, ⟨"/", Marker.null⟩] [] ⟨"/", true⟩ false)
    (by decide) (by decide)
  exact ⟨by decide, by decide, h.1⟩

/-- Claim C3: a `popstate` signal whose top-entry marker is null leaves the
`Router` state (including `pathname`) unchanged, transfers no focus, and
raises no error. -/
theorem null_signal_leaves_router_unchanged (s : SysState)
    (hm : liveMarker s.hist = Marker.null) :
    (broadcastPopstate s).1.router = s.router ∧
    (broadcastPopstate s).1.focusOnHeading = s.focusOnHeading ∧
    (broadcastPopstate s).2 = none := by
  simp [broadcastPopstate, routerHandlePopstate, hm]

theorem null_signal_leaves_router_unchanged_witness :
    liveMarker (SysState.mk [⟨"/about", Marker.null⟩] [] ⟨"/about", true⟩
        false).hist = Marker.null ∧
    (broadcastPopstate (SysState.mk [⟨"/about", Marker.null⟩] []
        ⟨"/about", true⟩ false)).1.router
      = (SysState.mk [⟨"/about", Marker.null⟩] [] ⟨"/about", true⟩ false).router := by
  have h := null_signal_leaves_router_unchanged
    (SysState.mk [⟨"/about", Marker.null⟩] [] ⟨"/about", true⟩ false) (by decide)
  exact ⟨by decide, h.1⟩

/-- Claim C4: the effect trace of any link activation contains exactly one
`popstate` dispatch, and at the point that dispatch begins the top history
entry's marker is the non-null object. -/
theorem click_dispatches_one_signal_with_nonnull_marker (l : LinkState)
    (hist : List HistEntry) :
    countBroadcasts (handleOnClickTrace l) = 1 ∧
    (histAtFirstBroadcast (handleOnClickTrace l) hist).map liveMarker
      = some Marker.obj := by
  cases hc : l.isCurrent <;>
    simp [handleOnClickTrace, hc, countBroadcasts, histAtFirstBroadcast,
      applyNavOp, liveMarker]

/-- Claim C5: if the route table has an entry for `"/"`, resolution is always
defined, and for any pathname absent from the table it yields exactly the
`"/"` entry. -/
theorem resolution_total_with_root_fallback
    (routes : List (String × RouteProps)) (e0 : RouteProps)
    (h0 : routes.lookup "/" = some e0) (p : String) :
    (resolveRoute routes p).isSome = true ∧
    (routes.lookup p = none → resolveRoute routes p = some e0) := by
  cases hp : routes.lookup p with
  | none => simp [resolveRoute, hp, h0, Option.orElse]
  | some e => simp [resolveRoute, hp, Option.orElse]

theorem resolution_total_with_root_fallback_witness :
    [("/", RouteProps.mk "Home" 0), ("/about", RouteProps.mk "About" 1)].lookup
        "/" = some (RouteProps.mk "Home" 0) ∧
    [("/", RouteProps.mk "Home" 0), ("/about", RouteProps.mk "About" 1)].lookup
        "/missing" = none ∧
    resolveRoute [("/", RouteProps.mk "Home" 0), ("/about", RouteProps.mk "About" 1)]
        "/missing" = some (RouteProps.mk "Home" 0) := by
  have h := resolution_total_with_root_fallback
    [("/", RouteProps.mk "Home" 0), ("/about", RouteProps.mk "About" 1)]
    (RouteProps.mk "Home" 0) (by decide) "/missing"
  exact ⟨by decide, by decide, h.2 (by decide)⟩

/-- Claim C6: a non-null-marker signal arriving while `contentRef` is
unassigned makes `Router.handlePopstate` throw the configuration error
instead of silently ignoring the condition, and no focus transfer happens. -/
theorem missing_focus_target_throws (hist : List HistEntry) (r : RouterState)
    (hm : liveMarker hist = Marker.obj) (hr : r.contentRef = false) :
    (routerHandlePopstate hist r).error
      = some "contentRef must be assigned by <Page> component" ∧
    (routerHandlePopstate hist r).focusTransferred = false := by
  simp [routerHandlePopstate, hm, hr]

theorem missing_focus_target_throws_witness :
    liveMarker [⟨"/about", Marker.obj⟩] = Marker.obj ∧
    (RouterState.mk "/" false).contentRef = false ∧
    (routerHandlePopstate [⟨"/about", Marker.obj⟩] (RouterState.mk "/" false)).error
      = some "contentRef must be assigned by <Page> component" := by
  have h := missing_focus_target_throws [⟨"/about", Marker.obj⟩]
    (RouterState.mk "/" false) (by decide) (by decide)
  exact ⟨by decide, by decide, h.1⟩

/-- Claim C7: in every reachable state — i.e. immediately after every signal
has been processed (and at mount) — each link's `isCurrent` equals the
comparison of its target with the live pathname, and its `aria-current`
attribute reflects that value. -/
theorem link_isCurrent_matches_live (s : SysState) (hs : Reachable s)
    (i : Nat) (hi : i < s.links.length) :
    (s.links.get ⟨i, hi⟩).isCurrent
        = ((s.links.get ⟨i, hi⟩).href == livePathname s.hist) ∧
    ariaCurrent (s.links.get ⟨i, hi⟩)
        = (if (s.links.get ⟨i, hi⟩).href = livePathname s.hist
           then some "page" else none) := by
  have hinv := reachable_link_inv s hs (s.links.get ⟨i, hi⟩)
    (List.get_mem s.links i hi)
  refine ⟨hinv, ?_⟩
  rw [ariaCurrent, hinv]
  by_cases h : (s.links.get ⟨i, hi⟩).href = livePathname s.hist <;> simp [h]

theorem link_isCurrent_matches_live_witness :
    0 < (initState "/" ["/", "/about"] true).links.length ∧
    ((initState "/" ["/", "/about"] true).links.get ⟨0, by decide⟩).isCurrent
      = (((initState "/" ["/", "/about"] true).links.get ⟨0, by decide⟩).href
          == livePathname (initState "/" ["/", "/about"] true).hist) := by
  have h := link_isCurrent_matches_live (initState "/" ["/", "/about"] true)
    (Reachable.init "/" ["/", "/about"] true) 0 (by decide)
  exact ⟨by decide, h.1⟩

/-- Claim C8: in the effect trace of any link activation, the history
mutation is complete before the `popstate` dispatch begins: the stack visible
at the first (and only) dispatch is exactly the fully-mutated stack. -/
theorem history_mutation_precedes_broadcast (l : LinkState)
    (hist : List HistEntry) :
    histAtFirstBroadcast (handleOnClickTrace l) hist = some (clickHist l hist) := by
  cases hc : l.isCurrent <;>
    simp [handleOnClickTrace, hc, histAtFirstBroadcast, applyNavOp, clickHist,
      applyNavOps]

/-- Claim C9: when a non-null-marker signal arrives with no focus target
registered, the `Router` has already set its `pathname` state to the live
location by the time the configuration error is thrown: the handler is not
atomic. -/
theorem pathname_updated_before_throw (hist : List HistEntry) (r : RouterState)
    (hm : liveMarker hist = Marker.obj) (hr : r.contentRef = false) :
    (routerHandlePopstate hist r).router.pathname = livePathname hist ∧
    ((routerHandlePopstate hist r).error).isSome = true := by
  simp [routerHandlePopstate, hm, hr]

theorem pathname_updated_before_throw_witness :
    liveMarker [⟨"/about", Marker.obj⟩] = Marker.obj ∧
    (RouterState.mk "/" false).contentRef = false ∧
    (routerHandlePopstate [⟨"/about", Marker.obj⟩]
        (RouterState.mk "/" false)).router.pathname
      = livePathname [⟨"/about", Marker.obj⟩] := by
  have h := pathname_updated_before_throw [⟨"/about", Marker.obj⟩]
    (RouterState.mk "/" false) (by decide) (by decide)
  exact ⟨by decide, by decide, h.1⟩

/-- Claim C10: the `usePopstate` subscription lifecycle is a round-trip: for
a handler not currently subscribed, mounting adds exactly that handler at the
end of the listener list, the cleanup removes exactly that handler restoring
the prior list, and after the cleanup the handler is no longer in the
listener list (so later dispatches never invoke it). -/
theorem subscribe_unsubscribe_roundtrip (ls : List Nat) (h : Nat)
    (hm : h ∉ ls) :
    addEventListener ls h = ls ++ [h] ∧
    removeEventListener (addEventListener ls h) h = ls ∧
    h ∉ removeEventListener (addEventListener ls h) h := by
  have hadd : addEventListener ls h = ls ++ [h] := by
    simp [addEventListener, hm]
  have hrem : removeEventListener (addEventListener ls h) h = ls := by
    rw [hadd, removeEventListener, List.erase_append_right _ hm]
    simp
  exact ⟨hadd, hrem, by rw [hrem]; exact hm⟩

theorem subscribe_unsubscribe_roundtrip_witness :
    (7 : Nat) ∉ [5] ∧
    removeEventListener (addEventListener [5] 7) 7 = [5] := by
  have h := subscribe_unsubscribe_roundtrip [5] 7 (by decide)
  exact ⟨by decide, h.2.1⟩

end SimpleRouter
